import Mathlib

/-!
Shallow embedding of the `balloc` small-object allocator (src/src/lib.rs)
and verification of its specification claims.

Modelling conventions:
* Machine integers (`usize`, `u16`, `u8`) are `Nat`; truncating casts are
  explicit `% 2 ^ w`.
* Pointers are `Nat` addresses; the null pointer is `0`.
* A page's in-memory header (the `Head` struct written at `HEAD_OFFSET` and
  the `HeadOwned` struct written at `HEAD_OWNED_OFFSET`) is modelled as a
  record `PageState`; the `MmapMut` handle is modelled by a `mapped` flag.
* Rust panics (array index out of bounds) are `Except.error`.
* The fallback allocator (`System`) is an abstract oracle `Fallback`; each
  facade operation additionally returns the list of externally observable
  `Event`s it performed (fallback calls, raw memory writes), so that
  forwarding and copying behaviour is visible in the model.
* Structure sizes are those of the Rust structs on a 64-bit Unix target:
  `Head = { u8, AtomicBool, AtomicUsize }` has size 16 and
  `HeadOwned = { u16, u16, ManuallyDrop<MmapMut> }` has size 24
  (`MmapMut` holds a pointer and a length).
-/

/-- `const USIZE_MAX: usize = !0;` -/
def USIZE_MAX : Nat := 2 ^ 64 - 1

/-- `const U16_MAX: u16 = !0;` -/
def U16_MAX : Nat := 2 ^ 16 - 1

/-- `const PAGE_SIZE: usize = 4096;` -/
def PAGE_SIZE : Nat := 4096

/-- `const PAGE_MASK: usize = !(PAGE_SIZE - 1);` (bitwise not on 64-bit usize) -/
def PAGE_MASK : Nat := 2 ^ 64 - PAGE_SIZE

/-- `mem::size_of::<Head>()` on a 64-bit target. -/
def HEAD_SIZE : Nat := 16

/-- `mem::size_of::<HeadOwned>()` on a 64-bit target. -/
def HEAD_OWNED_SIZE : Nat := 24

/-- `const PAGE_BUF_SIZE: usize = PAGE_SIZE - HEAD_SIZE - HEAD_OWNED_SIZE;` -/
def PAGE_BUF_SIZE : Nat := PAGE_SIZE - HEAD_SIZE - HEAD_OWNED_SIZE

/-- `const UNIT_SIZE: usize = 8;` -/
def UNIT_SIZE : Nat := 8

/-- `const MAX_SMALL_SLOT: usize = 64;` -/
def MAX_SMALL_SLOT : Nat := 64

/-- `const MAX_ALLOC_SIZE: usize = MAX_SMALL_SLOT * UNIT_SIZE;` -/
def MAX_ALLOC_SIZE : Nat := MAX_SMALL_SLOT * UNIT_SIZE

/-- `fn get_slot_size(size: usize) -> usize { size / UNIT_SIZE + if size % UNIT_SIZE == 0 {0} else {1} }` -/
def get_slot_size (size : Nat) : Nat :=
  size / UNIT_SIZE + if size % UNIT_SIZE = 0 then 0 else 1

/-- `std::alloc::Layout`: a size and an alignment. -/
structure Layout where
  size : Nat
  align : Nat
deriving DecidableEq

/-- The shared page header `struct Head` (readable by any thread):
`slot_size: u8`, `is_owned: AtomicBool`, `next_free: AtomicUsize`
(the shared free-list head, `USIZE_MAX` = empty sentinel). -/
structure Head where
  slot_size : Nat
  is_owned : Bool
  next_free : Nat
deriving DecidableEq

/-- The owner-private page header `struct HeadOwned`:
`length: u16` (the bump cursor), `next_free: u16` (the exclusive free-list
head, `U16_MAX` = empty sentinel). The `handle: ManuallyDrop<MmapMut>`
field is modelled by `PageState.mapped` below. -/
structure HeadOwned where
  length : Nat
  next_free : Nat
deriving DecidableEq

/-- The observable state of one page: the two headers embedded in its
4096-byte region, plus whether the region is still mapped (the `MmapMut`
handle held in `HeadOwned.handle`). -/
structure PageState where
  head : Head
  headOwned : HeadOwned
  mapped : Bool
deriving DecidableEq

/-- `PageRef::of(ptr)`: mask an interior pointer down to its page base,
`ptr as usize & PAGE_MASK`. -/
def PageRef.of (ptr : Nat) : Nat := ptr &&& PAGE_MASK

/-- `PageRef::max_len(&self) -> u16 { (PAGE_BUF_SIZE / self.head().slot_size as usize) as u16 }`
The `as u16` cast truncates mod `2 ^ 16`. -/
def PageRef.max_len (p : PageState) : Nat :=
  (PAGE_BUF_SIZE / p.head.slot_size) % 2 ^ 16

/-- `Page::new(slot_size: u8)`: map a fresh 4096-byte page (failure to map
is fatal and outside the model) and write the two headers:
`Head { slot_size, is_owned: true, next_free: USIZE_MAX }` and
`HeadOwned { length: 0, next_free: U16_MAX, handle }`. -/
def Page.new (slot_size : Nat) : PageState :=
  { head := { slot_size := slot_size, is_owned := true, next_free := USIZE_MAX }
    headOwned := { length := 0, next_free := U16_MAX }
    mapped := true }

/-- `Page::release(self)`: `self.head().is_owned.store(false, Ordering::Release)`. -/
def Page.release (p : PageState) : PageState :=
  { p with head := { p.head with is_owned := false } }

/-- `Page::unmap(self)`: drop the `MmapMut` handle, returning the region to
the OS. -/
def Page.unmap (p : PageState) : PageState :=
  { p with mapped := false }

/-- The fallback allocator `System`, as an abstract oracle giving the
pointer each of its operations would return. -/
structure Fallback where
  alloc : Layout → Nat
  allocZeroed : Layout → Nat
  realloc : Nat → Layout → Nat → Nat

/-- Externally observable actions of a facade operation: calls forwarded to
the fallback allocator, and raw memory writes (`ptr::write_bytes` /
`ptr::copy`). The source never emits `memCopy`; it is included so that the
absence of content copying is expressible. -/
inductive Event where
  | fbAlloc (layout : Layout) (ret : Nat)
  | fbAllocZeroed (layout : Layout) (ret : Nat)
  | fbDealloc (ptr : Nat) (layout : Layout)
  | fbRealloc (ptr : Nat) (layout : Layout) (newSize : Nat) (ret : Nat)
  | memWriteZero (ptr : Nat) (len : Nat)
  | memCopy (src : Nat) (dst : Nat) (len : Nat)
deriving DecidableEq

/-- `thread_local! { static LOCAL: [Cell<Option<Page>>; MAX_SMALL_SLOT] = array_64!(Cell::new(None)) }`:
the freshly initialized thread-local cache, one empty entry per class index. -/
def LOCAL_init : List (Option PageState) := List.replicate MAX_SMALL_SLOT none

/-- `Balloc::alloc(&self, layout)`:
sizes above `MAX_ALLOC_SIZE` are forwarded to `self.fallback.alloc(layout)`;
otherwise `LOCAL.with(|local| local[slot_size].take())` (a Rust index panic
when `slot_size` is out of bounds, modelled as `Except.error`), creating a
page with `Page::new` when the cache entry was empty — and then the source
discards the acquired page and returns `ptr::null_mut()`.
Returns (pointer, updated thread-local cache, observable events). -/
def Balloc.alloc (fb : Fallback) (locals : List (Option PageState)) (layout : Layout) :
    Except String (Nat × List (Option PageState) × List Event) :=
  if layout.size > MAX_ALLOC_SIZE then
    Except.ok (fb.alloc layout, locals, [Event.fbAlloc layout (fb.alloc layout)])
  else
    let slot_size := get_slot_size layout.size
    match locals[slot_size]? with
    | none => Except.error "index out of bounds"
    | some cached =>
        let page := cached.getD (Page.new (slot_size % 2 ^ 8))
        let _ := page
        Except.ok (0, locals.set slot_size none, [])

/-- `Balloc::dealloc(&self, ptr, layout) { self.fallback.dealloc(ptr, layout) }`:
the source forwards every deallocation to the fallback allocator,
unconditionally. Returns the observable events. -/
def Balloc.dealloc (ptr : Nat) (layout : Layout) : List Event :=
  [Event.fbDealloc ptr layout]

/-- `Balloc::alloc_zeroed(&self, layout)`: sizes above `MAX_ALLOC_SIZE` go to
`self.fallback.alloc_zeroed(layout)`; otherwise call `self.alloc(layout)`,
return early if it gave null, else `ptr::write_bytes(result, 0, layout.size())`. -/
def Balloc.alloc_zeroed (fb : Fallback) (locals : List (Option PageState)) (layout : Layout) :
    Except String (Nat × List (Option PageState) × List Event) :=
  if layout.size > MAX_ALLOC_SIZE then
    Except.ok (fb.allocZeroed layout, locals, [Event.fbAllocZeroed layout (fb.allocZeroed layout)])
  else
    match Balloc.alloc fb locals layout with
    | Except.error e => Except.error e
    | Except.ok (result, locals2, evs) =>
        if result = 0 then Except.ok (result, locals2, evs)
        else Except.ok (result, locals2, evs ++ [Event.memWriteZero result layout.size])

/-- `Balloc::realloc(&self, prev, layout, new_size)`: sizes above
`MAX_ALLOC_SIZE` go to `self.fallback.realloc(prev, layout, new_size)`;
equal slot classes return `prev` unchanged; otherwise
`self.dealloc(prev, layout)` then
`self.alloc(Layout::from_size_align_unchecked(new_size, layout.align()))`
— with no copying of contents in between. -/
def Balloc.realloc (fb : Fallback) (locals : List (Option PageState))
    (prev : Nat) (layout : Layout) (new_size : Nat) :
    Except String (Nat × List (Option PageState) × List Event) :=
  if layout.size > MAX_ALLOC_SIZE then
    Except.ok (fb.realloc prev layout new_size, locals,
      [Event.fbRealloc prev layout new_size (fb.realloc prev layout new_size)])
  else if get_slot_size layout.size = get_slot_size new_size then
    Except.ok (prev, locals, [])
  else
    let devs := Balloc.dealloc prev layout
    match Balloc.alloc fb locals { size := new_size, align := layout.align } with
    | Except.error e => Except.error e
    | Except.ok (r, locals2, aevs) => Except.ok (r, locals2, devs ++ aevs)

/-- A concrete fallback oracle, used by witnesses. -/
def fb0 : Fallback :=
  { alloc := fun _ => 2 ^ 20
    allocZeroed := fun _ => 2 ^ 20
    realloc := fun _ _ _ => 2 ^ 20 }

/-- The `max_len` formula asserted by the claim: the number of slots of
`size_class × 8` bytes that fit in the slab. (Stated from the spec's words,
for comparison with `PageRef.max_len` from the source.) -/
def claimed_max_len (c : Nat) : Nat := PAGE_BUF_SIZE / (c * UNIT_SIZE)

/-- C5: for `1 ≤ n ≤ 512` the size-class function equals `ceil(n / 8)`,
is monotonic, satisfies `size_class(n) * 8 ≥ n`, and identifies sizes with
equal `ceil(n / 8)`. -/
theorem get_slot_size_spec (n n' : Nat) (h1 : 1 ≤ n) (h2 : n ≤ 512)
    (h1' : 1 ≤ n') (h2' : n' ≤ 512) :
    get_slot_size n = (n + 7) / 8 ∧
    (n ≤ n' → get_slot_size n ≤ get_slot_size n') ∧
    n ≤ get_slot_size n * 8 ∧
    ((n + 7) / 8 = (n' + 7) / 8 → get_slot_size n = get_slot_size n') := by
  unfold get_slot_size UNIT_SIZE
  split_ifs <;> omega

/-- C5 witness: the size-class properties at `n = 3`, `n' = 5`. -/
theorem get_slot_size_spec_witness :
    get_slot_size 3 = (3 + 7) / 8 ∧
    (3 ≤ 5 → get_slot_size 3 ≤ get_slot_size 5) ∧
    3 ≤ get_slot_size 3 * 8 ∧
    ((3 + 7) / 8 = (5 + 7) / 8 → get_slot_size 3 = get_slot_size 5) :=
  get_slot_size_spec 3 5 (by decide) (by decide) (by decide) (by decide)

/-- C3: every request of 505..512 bytes is on the small path, has size class
64, and `local[slot_size]` indexes past the end of the 64-entry thread-local
cache array, so the allocation panics (index out of bounds) instead of
completing. -/
theorem alloc_class64_panics (fb : Fallback) (size align : Nat)
    (h1 : 505 ≤ size) (h2 : size ≤ 512) :
    ¬ size > MAX_ALLOC_SIZE ∧
    get_slot_size size = 64 ∧
    ¬ get_slot_size size < MAX_SMALL_SLOT ∧
    Balloc.alloc fb LOCAL_init { size := size, align := align } =
      Except.error "index out of bounds" := by
  have hns : ¬ size > MAX_ALLOC_SIZE := by
    unfold MAX_ALLOC_SIZE MAX_SMALL_SLOT UNIT_SIZE; omega
  have hc : get_slot_size size = 64 := by
    unfold get_slot_size UNIT_SIZE; split_ifs <;> omega
  refine ⟨hns, hc, by simp [hc, MAX_SMALL_SLOT], ?_⟩
  unfold Balloc.alloc
  rw [if_neg hns]
  simp only [hc]
  rfl

/-- C3 witness: the out-of-bounds panic at the concrete request size 512. -/
theorem alloc_class64_panics_witness :
    (505 ≤ 512 ∧ (512 : Nat) ≤ 512) ∧
    (¬ (512 : Nat) > MAX_ALLOC_SIZE ∧
     get_slot_size 512 = 64 ∧
     ¬ get_slot_size 512 < MAX_SMALL_SLOT ∧
     Balloc.alloc fb0 LOCAL_init { size := 512, align := 8 } =
       Except.error "index out of bounds") :=
  ⟨⟨by decide, by decide⟩, alloc_class64_panics fb0 512 8 (by decide) (by decide)⟩

/-- C8: for a size class `1 ≤ c ≤ 64`, `Page::new c` produces
`slot_size = c`, cursor `length = 0`, both free lists at their empty
sentinels, `is_owned = true`, a mapped region, and `max_len ≥ 1`. -/
theorem page_new_init (c : Nat) (h1 : 1 ≤ c) (h2 : c ≤ 64) :
    (Page.new c).head.slot_size = c ∧
    (Page.new c).headOwned.length = 0 ∧
    (Page.new c).headOwned.next_free = U16_MAX ∧
    (Page.new c).head.next_free = USIZE_MAX ∧
    (Page.new c).head.is_owned = true ∧
    (Page.new c).mapped = true ∧
    1 ≤ PageRef.max_len (Page.new c) := by
  refine ⟨rfl, rfl, rfl, rfl, rfl, rfl, ?_⟩
  show 1 ≤ PAGE_BUF_SIZE / c % 2 ^ 16
  have hle : c ≤ PAGE_BUF_SIZE := by
    unfold PAGE_BUF_SIZE PAGE_SIZE HEAD_SIZE HEAD_OWNED_SIZE; omega
  have hlt : PAGE_BUF_SIZE / c < 2 ^ 16 :=
    lt_of_le_of_lt (Nat.div_le_self _ _)
      (by unfold PAGE_BUF_SIZE PAGE_SIZE HEAD_SIZE HEAD_OWNED_SIZE; norm_num)
  rw [Nat.mod_eq_of_lt hlt]
  exact (Nat.one_le_div_iff h1).mpr hle

/-- C8 witness: the fresh-page state at the concrete class 5. -/
theorem page_new_init_witness :
    (1 ≤ 5 ∧ (5 : Nat) ≤ 64) ∧
    ((Page.new 5).head.slot_size = 5 ∧
     (Page.new 5).headOwned.length = 0 ∧
     (Page.new 5).headOwned.next_free = U16_MAX ∧
     (Page.new 5).head.next_free = USIZE_MAX ∧
     (Page.new 5).head.is_owned = true ∧
     (Page.new 5).mapped = true ∧
     1 ≤ PageRef.max_len (Page.new 5)) :=
  ⟨⟨by decide, by decide⟩, page_new_init 5 (by decide) (by decide)⟩

/-- C7 counterexample: on a fresh class-1 page the source computes
`max_len = PAGE_BUF_SIZE / 1 = 4056`, not
`floor(PAGE_BUF_SIZE / (1 × 8)) = 507` as the claim's slot-byte-size
reading asserts. -/
theorem max_len_counterexample :
    PageRef.max_len (Page.new 1) ≠ claimed_max_len 1 := by decide

/-- C7 amended: `max_len` divides the slab byte count by the size-class
number itself (not by the slot's byte size `size_class × 8`); on the pages
the source constructs the bump cursor (0) is bounded by it and both free
lists are empty sentinels, holding no index at all. -/
theorem max_len_divides_by_class (c : Nat) (h1 : 1 ≤ c) (h2 : c ≤ 64) :
    PageRef.max_len (Page.new c) = PAGE_BUF_SIZE / c ∧
    (Page.new c).headOwned.length ≤ PageRef.max_len (Page.new c) ∧
    (Page.new c).headOwned.next_free = U16_MAX ∧
    (Page.new c).head.next_free = USIZE_MAX := by
  have hlt : PAGE_BUF_SIZE / c < 2 ^ 16 :=
    lt_of_le_of_lt (Nat.div_le_self _ _)
      (by unfold PAGE_BUF_SIZE PAGE_SIZE HEAD_SIZE HEAD_OWNED_SIZE; norm_num)
  refine ⟨?_, ?_, rfl, rfl⟩
  · show PAGE_BUF_SIZE / c % 2 ^ 16 = PAGE_BUF_SIZE / c
    exact Nat.mod_eq_of_lt hlt
  · exact Nat.zero_le _

/-- C7 amended witness: the `max_len` formula at the concrete class 3. -/
theorem max_len_divides_by_class_witness :
    (1 ≤ 3 ∧ (3 : Nat) ≤ 64) ∧
    (PageRef.max_len (Page.new 3) = PAGE_BUF_SIZE / 3 ∧
     (Page.new 3).headOwned.length ≤ PageRef.max_len (Page.new 3) ∧
     (Page.new 3).headOwned.next_free = U16_MAX ∧
     (Page.new 3).head.next_free = USIZE_MAX) :=
  ⟨⟨by decide, by decide⟩, max_len_divides_by_class 3 (by decide) (by decide)⟩

/-- C10: `Page::release` sets `is_owned` to false and changes nothing else:
the region stays mapped as before, and `slot_size`, the shared free-list
head and the whole owner-private header are unchanged. -/
theorem release_frame (p : PageState) :
    (Page.release p).head.is_owned = false ∧
    (Page.release p).mapped = p.mapped ∧
    (Page.release p).head.slot_size = p.head.slot_size ∧
    (Page.release p).head.next_free = p.head.next_free ∧
    (Page.release p).headOwned = p.headOwned :=
  ⟨rfl, rfl, rfl, rfl, rfl⟩

/-- C1 (code bug): two consecutive `alloc` calls of 8 bytes from an empty
thread-local cache both return the null pointer 0 — the source acquires a
page but discards it and returns `ptr::null_mut()` — contradicting the
claimed two distinct non-null slot addresses. -/
theorem alloc8_consecutive_null (fb : Fallback) :
    Balloc.alloc fb LOCAL_init { size := 8, align := 8 } =
      Except.ok (0, LOCAL_init.set 1 none, []) ∧
    Balloc.alloc fb (LOCAL_init.set 1 none) { size := 8, align := 8 } =
      Except.ok (0, (LOCAL_init.set 1 none).set 1 none, []) :=
  ⟨rfl, rfl⟩

/-- C2 (code bug): a deallocation of size ≤ 512 is still forwarded verbatim
to the fallback allocator — the source's `dealloc` never masks the pointer
to its page nor touches any free list. -/
theorem dealloc_small_forwards_to_fallback (ptr : Nat) (layout : Layout)
    (h : layout.size ≤ 512) :
    Balloc.dealloc ptr layout = [Event.fbDealloc ptr layout] := rfl

/-- C2 witness: the small deallocation of 8 bytes at address 8192 goes to
the fallback allocator. -/
theorem dealloc_small_forwards_witness :
    (Layout.mk 8 8).size ≤ 512 ∧
    Balloc.dealloc 8192 { size := 8, align := 8 } =
      [Event.fbDealloc 8192 { size := 8, align := 8 }] :=
  ⟨by decide, dealloc_small_forwards_to_fallback 8192 { size := 8, align := 8 } (by decide)⟩

/-- C4 (code bug): `realloc(prev, 40, 41)` crosses size classes (5 ≠ 6);
the source deallocates the old block via the fallback allocator, copies
nothing (no `memCopy` event exists in the trace), and its new small
allocation returns the null pointer 0 instead of a fresh address. -/
theorem realloc_40_41_no_copy (fb : Fallback) (prev : Nat) :
    Balloc.realloc fb LOCAL_init prev { size := 40, align := 8 } 41 =
      Except.ok (0, LOCAL_init.set 6 none,
        [Event.fbDealloc prev { size := 40, align := 8 }]) :=
  rfl

/-- C9 (code bug): `alloc_zeroed` of 8 bytes from an empty thread-local
cache returns the null pointer with an empty event trace — in particular no
`memWriteZero` happens, because the inner `alloc` never produces a non-null
small address. -/
theorem alloc_zeroed_small_null (fb : Fallback) :
    Balloc.alloc_zeroed fb LOCAL_init { size := 8, align := 8 } =
      Except.ok (0, LOCAL_init.set 1 none, []) :=
  rfl

/-- C6: every facade operation on a layout of more than 512 bytes forwards
its arguments unchanged to the fallback allocator, performs exactly that one
fallback call, leaves the thread-local cache untouched, and returns the
fallback's result verbatim. -/
theorem large_requests_forward_verbatim (fb : Fallback)
    (locals : List (Option PageState)) (ptr newSize : Nat) (layout : Layout)
    (h : layout.size > 512) :
    Balloc.alloc fb locals layout =
      Except.ok (fb.alloc layout, locals, [Event.fbAlloc layout (fb.alloc layout)]) ∧
    Balloc.alloc_zeroed fb locals layout =
      Except.ok (fb.allocZeroed layout, locals,
        [Event.fbAllocZeroed layout (fb.allocZeroed layout)]) ∧
    Balloc.dealloc ptr layout = [Event.fbDealloc ptr layout] ∧
    Balloc.realloc fb locals ptr layout newSize =
      Except.ok (fb.realloc ptr layout newSize, locals,
        [Event.fbRealloc ptr layout newSize (fb.realloc ptr layout newSize)]) := by
  have h' : layout.size > MAX_ALLOC_SIZE := by
    unfold MAX_ALLOC_SIZE MAX_SMALL_SLOT UNIT_SIZE; omega
  refine ⟨?_, ?_, rfl, ?_⟩
  · unfold Balloc.alloc; rw [if_pos h']
  · unfold Balloc.alloc_zeroed; rw [if_pos h']
  · unfold Balloc.realloc; rw [if_pos h']

/-- C6 witness: a 513-byte layout is forwarded verbatim by all four
operations, at the concrete fallback oracle `fb0`. -/
theorem large_requests_forward_verbatim_witness :
    (Layout.mk 513 8).size > 512 ∧
    (Balloc.alloc fb0 LOCAL_init { size := 513, align := 8 } =
       Except.ok (fb0.alloc { size := 513, align := 8 }, LOCAL_init,
         [Event.fbAlloc { size := 513, align := 8 }
           (fb0.alloc { size := 513, align := 8 })]) ∧
     Balloc.alloc_zeroed fb0 LOCAL_init { size := 513, align := 8 } =
       Except.ok (fb0.allocZeroed { size := 513, align := 8 }, LOCAL_init,
         [Event.fbAllocZeroed { size := 513, align := 8 }
           (fb0.allocZeroed { size := 513, align := 8 })]) ∧
     Balloc.dealloc 4096 { size := 513, align := 8 } =
       [Event.fbDealloc 4096 { size := 513, align := 8 }] ∧
     Balloc.realloc fb0 LOCAL_init 4096 { size := 513, align := 8 } 600 =
       Except.ok (fb0.realloc 4096 { size := 513, align := 8 } 600, LOCAL_init,
         [Event.fbRealloc 4096 { size := 513, align := 8 } 600
           (fb0.realloc 4096 { size := 513, align := 8 } 600)])) :=
  ⟨by decide,
   large_requests_forward_verbatim fb0 LOCAL_init 4096 600
     { size := 513, align := 8 } (by decide)⟩
